import Mathlib

/-!
Verification development for the dixa-api-client library.

The resource facades (`ConversationResource`, `EndUserResource`) and the
public constructor (`Dixa.__init__`) are embedded directly from the Python
source.  Decoded JSON bodies are modelled by the inductive `Json`; a Python
exception crossing the facade boundary is a `DixaError`.  The call into the
core client (`self.client.get/post/patch/paginate`) is abstracted as the
`Except DixaError Json` value it produces, so each facade method becomes a
function from that response to the method's result.  Typed-record
constructors (`InternalNote(**data)`, the members of `ConversationTypes`,
...), whose defining module is not part of the embedded sources, are
parameters: a total constructor `Json → α` where the source never catches
its exceptions, and a partial one `Json → Option α` (with `none` standing
for a raised `TypeError`) where the source wraps the call in
`try/except TypeError`.

The request executor and the paginator of the core client are modelled from
the specification (their source module is absent); those definitions carry a
`Modelled from the spec:` doc comment.
-/

/-- A decoded JSON value, as returned by the core client to a facade. -/
inductive Json where
  | null
  | bool (b : Bool)
  | num (n : Int)
  | str (s : String)
  | arr (xs : List Json)
  | obj (fields : List (String × Json))

/-- The Python type name of a decoded value, as used by the facades'
`type(data).__name__` error messages. -/
def Json.pyTypeName : Json → String
  | .null => "NoneType"
  | .bool _ => "bool"
  | .num _ => "int"
  | .str _ => "str"
  | .arr _ => "list"
  | .obj _ => "dict"

/-- `isinstance(data, dict)`. -/
def Json.isDict : Json → Bool
  | .obj _ => true
  | _ => false

/-- `isinstance(data, list)`. -/
def Json.isList : Json → Bool
  | .arr _ => true
  | _ => false

/-- An exception surfaced to the caller of a facade method.  `api` is
`DixaAPIError` with its message; `indexError` is Python's `IndexError`
(raised by `data[0]` on an empty list); `client` and `exhausted` are the
terminal errors of the request executor. -/
inductive DixaError where
  | api (msg : String)
  | indexError
  | client (status : Nat)
  | exhausted (lastStatus : Option Nat) (attempts : Nat)
  deriving DecidableEq

/-- `True` exactly on a facade-raised `DixaAPIError`, the embedding of the
spec's ShapeError when produced by a shape check. -/
def isApiErr {α : Type} : Except DixaError α → Bool
  | .error (.api _) => true
  | _ => false

/-- `ConversationResource.add_internal_note` (conversations.py:189-198):
POST the body, require a dict, build one `InternalNote`. -/
def ConversationResource.add_internal_note {α : Type} (mk : Json → α)
    (resp : Except DixaError Json) : Except DixaError α :=
  match resp with
  | .error e => .error e
  | .ok data =>
    if data.isDict then .ok (mk data)
    else .error (.api ("Expected dict, got " ++ data.pyTypeName))

/-- `ConversationResource.add_internal_notes` (conversations.py:200-211):
POST the bulk body, require a list, build one `InternalNote` per item. -/
def ConversationResource.add_internal_notes {α : Type} (mk : Json → α)
    (resp : Except DixaError Json) : Except DixaError (List α) :=
  match resp with
  | .error e => .error e
  | .ok data =>
    match data with
    | .arr items => .ok (items.map mk)
    | _ => .error (.api ("Expected list, got " ++ data.pyTypeName))

/-- `EndUserResource.patch_end_user_custom_attributes`
(end_users.py:184-195): PATCH the body, require a list (the source's
message says "Expected dict" while checking for a list; the message is
embedded as written), build one `EndUserCustomAttribute` per item. -/
def EndUserResource.patch_end_user_custom_attributes {α : Type}
    (mk : Json → α) (resp : Except DixaError Json) :
    Except DixaError (List α) :=
  match resp with
  | .error e => .error e
  | .ok data =>
    match data with
    | .arr items => .ok (items.map mk)
    | _ => .error (.api ("Expected dict, got " ++ data.pyTypeName))

/-- `EndUserResource.get` (end_users.py:143-150): GET, require a dict,
build an `EndUser`. -/
def EndUserResource.get {α : Type} (mk : Json → α)
    (resp : Except DixaError Json) : Except DixaError α :=
  match resp with
  | .error e => .error e
  | .ok data =>
    if data.isDict then .ok (mk data)
    else .error (.api ("Expected dict, got " ++ data.pyTypeName))

/-- The `for conversation_type in ConversationTypes: try ... except
TypeError: continue` loop shared by `ConversationResource.create` and
`ConversationResource.get`: apply each candidate constructor in order,
return the first that does not raise `TypeError`, fall through to
`fallback` when every candidate raises. -/
def tryConversationTypes {α : Type} (ctors : List (Json → Option α))
    (d : Json) (fallback : DixaError) : Except DixaError α :=
  match ctors with
  | [] => .error fallback
  | c :: rest =>
    match c d with
    | some r => .ok r
    | none => tryConversationTypes rest d fallback

/-- `ConversationResource.create` (conversations.py:258-272): POST the
body, require a dict, then try each member of `ConversationTypes` in
order; raise `DixaAPIError("Unknown conversation type", data)` when all
raise `TypeError`. -/
def ConversationResource.create {α : Type} (ctors : List (Json → Option α))
    (resp : Except DixaError Json) : Except DixaError α :=
  match resp with
  | .error e => .error e
  | .ok data =>
    if data.isDict then
      tryConversationTypes ctors data (.api "Unknown conversation type")
    else .error (.api ("Expected dict, got " ++ data.pyTypeName))

/-- `ConversationResource.get` (conversations.py:274-290): GET, require a
dict, then try each member of `ConversationTypes` in order; raise
`DixaAPIError(f"Expected one of {ConversationTypes}, got ...")` when all
raise `TypeError`. -/
def ConversationResource.get {α : Type} (ctors : List (Json → Option α))
    (resp : Except DixaError Json) : Except DixaError α :=
  match resp with
  | .error e => .error e
  | .ok data =>
    if data.isDict then
      tryConversationTypes ctors data
        (.api ("Expected one of ConversationTypes, got " ++ data.pyTypeName))
    else .error (.api ("Expected dict, got " ++ data.pyTypeName))

/-- The `for return_cls in ConversationTypes: try: return
return_cls(**data[0]) except TypeError: continue / else: raise` loop of
`EndUserResource.list_conversations`.  `data[0]` is evaluated inside the
`try` on each iteration; on an empty list it raises `IndexError`, which
the `except TypeError` clause does not catch. -/
def listConversationsLoop {α : Type} (ctors : List (Json → Option α))
    (data : List Json) : Except DixaError α :=
  match ctors with
  | [] => .error (.api "Expected one of ConversationTypes, got list")
  | c :: rest =>
    match data with
    | [] => .error .indexError
    | d :: _ =>
      match c d with
      | some r => .ok r
      | none => listConversationsLoop rest data

/-- `EndUserResource.list_conversations` (end_users.py:152-167): paginate,
require a list, then run the constructor-trial loop on `data[0]` only.
Note the result is a single record, not one record per item. -/
def EndUserResource.list_conversations {α : Type}
    (ctors : List (Json → Option α)) (resp : Except DixaError Json) :
    Except DixaError α :=
  match resp with
  | .error e => .error e
  | .ok data =>
    match data with
    | .arr items => listConversationsLoop ctors items
    | _ => .error (.api ("Expected list, got " ++ data.pyTypeName))

/-- `ConversationResource.list_activity_logs` (conversations.py:292-296):
return `self.client.paginate(f"{self._url}/{conversation_id}/activitylog")`
unchanged.  `pg` abstracts `self.client.paginate`; `url` is `self._url`. -/
def ConversationResource.list_activity_logs {ρ : Type} (pg : String → ρ)
    (url conversation_id : String) : ρ :=
  pg (url ++ "/" ++ conversation_id ++ "/activitylog")

/-- `ConversationResource.list_organization_activity_log`
(conversations.py:341-345): return
`self.client.paginate(f"{self._url}/{conversation_id}/activitylog")`
unchanged. -/
def ConversationResource.list_organization_activity_log {ρ : Type}
    (pg : String → ρ) (url conversation_id : String) : ρ :=
  pg (url ++ "/" ++ conversation_id ++ "/activitylog")

/-- The core client's constructor-visible state: the five values the
public constructor hands to `DixaClient(...)`.  `L` is the (opaque)
logger type. -/
structure DixaClient (L : Type) where
  api_key : String
  api_secret : Option String
  max_retries : Nat
  retry_delay : Nat
  logger : Option L

/-- The public client: holds the core client it constructs. -/
structure Dixa (L : Type) where
  client : DixaClient L

/-- `Dixa.__init__` (dixa/__init__.py:23-38): defaults `api_secret=None`,
`max_retries=3`, `retry_delay=10`, `logger=None`; constructs
`DixaClient(api_key, api_secret, max_retries, retry_delay, logger)`. -/
def Dixa.init (L : Type) (api_key : String)
    (api_secret : Option String := none) (max_retries : Nat := 3)
    (retry_delay : Nat := 10) (logger : Option L := none) : Dixa L :=
  ⟨⟨api_key, api_secret, max_retries, retry_delay, logger⟩⟩

/-- Modelled from the spec: the outcome of one Transport invocation
(DixaClient's transport layer is not among the embedded sources).  A
non-2xx HTTP response carries its status and, for 429, an optional
server retry-after hint in seconds; `transportFailure` is a
connection-level failure. -/
inductive Outcome where
  | success (body : Json)
  | httpError (status : Nat) (hint : Option Nat)
  | transportFailure

/-- Modelled from the spec: the immutable retry configuration owned by the
client (max_retries, base retry_delay in seconds). -/
structure RetryConfig where
  max_retries : Nat
  retry_delay : Nat

/-- Modelled from the spec: retry eligibility — status 429, any 5xx, and
any transport failure; no other outcome is retried. -/
def retryEligible : Outcome → Bool
  | .success _ => false
  | .httpError s _ => s == 429 || (500 ≤ s && s ≤ 599)
  | .transportFailure => true

/-- Modelled from the spec: exponential backoff from the base delay for
the (1-based) attempt number. -/
def delayFor (cfg : RetryConfig) (attempt : Nat) : Nat :=
  cfg.retry_delay * 2 ^ (attempt - 1)

/-- Modelled from the spec: the delay actually slept before the next
attempt — the computed backoff, except that a 429 with a server hint
takes the larger of hint and backoff. -/
def effectiveDelay (cfg : RetryConfig) (attempt : Nat) : Outcome → Nat
  | .httpError s hint =>
    if s == 429 then max (delayFor cfg attempt) (hint.getD 0)
    else delayFor cfg attempt
  | _ => delayFor cfg attempt

/-- Modelled from the spec: the request-executor retry loop.  `transport`
maps the 0-based invocation index to that invocation's outcome; `fuel` is
the number of retries still allowed and `done` the number of invocations
already made.  Returns the terminal result, the total number of transport
invocations, and the list of backoff delays slept (one per retry, in
order). -/
def execGo (cfg : RetryConfig) (transport : Nat → Outcome) :
    Nat → Nat → Except DixaError Json × Nat × List Nat
  | 0, done =>
    match transport done with
    | .success body => (.ok body, done + 1, [])
    | .httpError s hint =>
      if retryEligible (.httpError s hint) then
        (.error (.exhausted (some s) (done + 1)), done + 1, [])
      else (.error (.client s), done + 1, [])
    | .transportFailure => (.error (.exhausted none (done + 1)), done + 1, [])
  | fuel + 1, done =>
    match transport done with
    | .success body => (.ok body, done + 1, [])
    | .httpError s hint =>
      if retryEligible (.httpError s hint) then
        let r := execGo cfg transport fuel (done + 1)
        (r.1, r.2.1, effectiveDelay cfg (done + 1) (.httpError s hint) :: r.2.2)
      else (.error (.client s), done + 1, [])
    | .transportFailure =>
      let r := execGo cfg transport fuel (done + 1)
      (r.1, r.2.1, effectiveDelay cfg (done + 1) .transportFailure :: r.2.2)

/-- Modelled from the spec: one logical request-executor operation —
up to `max_retries` retries after the first invocation. -/
def execute (cfg : RetryConfig) (transport : Nat → Outcome) :
    Except DixaError Json × Nat × List Nat :=
  execGo cfg transport cfg.max_retries 0

/-- Modelled from the spec: one page of a cursor-paginated endpoint —
its items and the continuation cursor (`none` signals end-of-stream). -/
structure Page where
  items : List Json
  next : Option String

/-- Modelled from the spec: merge a continuation cursor into the query
parameters of a page request. -/
def mergeCursor (query : List (String × String)) : Option String →
    List (String × String)
  | none => query
  | some c => query ++ [("pageKey", c)]

/-- Modelled from the spec: the paginator loop.  `fetch` maps the cursor
sent with a page request to the page the server serves; `fuel` caps the
iteration (the spec accepts unbounded iteration on a misbehaving server,
so the model cuts off at `fuel` pages).  Returns the accumulated items and
the list of query-parameter sets sent, one per request-executor call, in
order. -/
def paginateGo (fetch : Option String → Page)
    (query : List (String × String)) :
    Nat → Option String → List Json × List (List (String × String))
  | 0, _ => ([], [])
  | fuel + 1, cur =>
    let p := fetch cur
    match p.next with
    | none => (p.items, [mergeCursor query cur])
    | some c =>
      let r := paginateGo fetch query fuel (some c)
      (p.items ++ r.1, mergeCursor query cur :: r.2)

/-- Modelled from the spec: `DixaClient.paginate` — drive the request
executor from the cursorless first request until a page without a
continuation cursor. -/
def paginate (fetch : Option String → Page)
    (query : List (String × String)) (fuel : Nat) :
    List Json × List (List (String × String)) :=
  paginateGo fetch query fuel none

/-- The finite cursor chain a terminating pagination run follows:
starting from cursor `cur`, the server serves exactly the pages in the
list, each page's cursor leading to the next, the last page cursorless. -/
inductive PageChain (fetch : Option String → Page) :
    Option String → List Page → Prop
  | last (cur : Option String) (p : Page) :
      fetch cur = p → p.next = none → PageChain fetch cur [p]
  | step (cur : Option String) (p : Page) (c : String) (rest : List Page) :
      fetch cur = p → p.next = some c → PageChain fetch (some c) rest →
      PageChain fetch cur (p :: rest)

/-- A terminating chain is nonempty. -/
theorem PageChain.ne_nil {fetch : Option String → Page}
    {cur : Option String} {pages : List Page}
    (h : PageChain fetch cur pages) : pages ≠ [] := by
  cases h <;> simp

/-- The first constructor to succeed wins: when every constructor in `pre`
raises `TypeError` and `c` succeeds, the trial loop returns `c`'s record. -/
theorem tryConversationTypes_first_success {α : Type}
    (pre : List (Json → Option α)) (post : List (Json → Option α))
    (c : Json → Option α) (d : Json) (fb : DixaError) (r : α)
    (hpre : ∀ c' ∈ pre, c' d = none) (hc : c d = some r) :
    tryConversationTypes (pre ++ c :: post) d fb = .ok r := by
  induction pre with
  | nil => simp [tryConversationTypes, hc]
  | cons c' pre' ih =>
    have h' : c' d = none := hpre c' (by simp)
    simp only [List.cons_append, tryConversationTypes, h']
    exact ih fun x hx => hpre x (by simp [hx])

/-- When every constructor raises `TypeError`, the trial loop falls
through to the fallback error. -/
theorem tryConversationTypes_exhausted {α : Type}
    (ctors : List (Json → Option α)) (d : Json) (fb : DixaError)
    (hall : ∀ c' ∈ ctors, c' d = none) :
    tryConversationTypes ctors d fb = .error fb := by
  induction ctors with
  | nil => rfl
  | cons c' rest ih =>
    have h' : c' d = none := hall c' (by simp)
    simp only [tryConversationTypes, h']
    exact ih fun x hx => hall x (by simp [hx])

/-- Claim C7: the public constructor `Dixa.__init__` takes an API key
(required string), an optional API secret, a max retry count defaulting
to 3, a base retry delay defaulting to 10 seconds, and an optional
logger, and passes all five values unchanged to the `DixaClient` it
constructs. -/
theorem C7_dixa_init_passthrough (L : Type) (k : String)
    (s : Option String) (m r : Nat) (l : Option L) :
    (Dixa.init L k s m r l).client = ⟨k, s, m, r, l⟩ ∧
    Dixa.init L k = Dixa.init L k none 3 10 none :=
  ⟨rfl, rfl⟩

/-- Claim C10: `ConversationResource.list_activity_logs` and
`ConversationResource.list_organization_activity_log` are extensionally
equal: for every conversation id both issue the pagination call to the
URL path ending in `/{conversation_id}/activitylog` and return its result
unchanged. -/
theorem C10_activity_log_methods_equal (ρ : Type) (pg : String → ρ)
    (url conversation_id : String) :
    ConversationResource.list_activity_logs pg url conversation_id =
      ConversationResource.list_organization_activity_log pg url
        conversation_id ∧
    ConversationResource.list_activity_logs pg url conversation_id =
      pg (url ++ "/" ++ conversation_id ++ "/activitylog") :=
  ⟨rfl, rfl⟩

/-- Claim C8: every error raised by the underlying client call propagates
unchanged through each embedded facade method: no method catches or
replaces a client-raised error, and no partial or default object is
returned on error (the result is exactly the propagated error). -/
theorem C8_error_propagation (α : Type) (mk : Json → α)
    (ctors : List (Json → Option α)) (e : DixaError) :
    ConversationResource.add_internal_note mk (.error e) = .error e ∧
    ConversationResource.add_internal_notes mk (.error e) = .error e ∧
    EndUserResource.get mk (.error e) = .error e ∧
    EndUserResource.patch_end_user_custom_attributes mk (.error e) =
      .error e ∧
    ConversationResource.create ctors (.error e) = .error e ∧
    ConversationResource.get ctors (.error e) = .error e ∧
    EndUserResource.list_conversations ctors (.error e) = .error e ∧
    (∀ url cid : String,
      ConversationResource.list_activity_logs
        (fun _ => (Except.error e : Except DixaError Json)) url cid =
        .error e) :=
  ⟨rfl, rfl, rfl, rfl, rfl, rfl, rfl, fun _ _ => rfl⟩

/-- Claim C2: an operation whose expected response shape is dict fails
with a shape error (`DixaAPIError` from the `isinstance` check) when the
decoded body is not a mapping, and an operation whose expected shape is
list fails likewise when the decoded body is not a sequence; the result
is that error for every constructor argument, so no typed record is
constructed first. -/
theorem C2_shape_checks (α : Type) (mk : Json → α)
    (ctors : List (Json → Option α)) (d : Json) :
    (d.isDict = false →
      isApiErr (ConversationResource.add_internal_note mk (.ok d)) = true ∧
      isApiErr (EndUserResource.get mk (.ok d)) = true ∧
      isApiErr (ConversationResource.create ctors (.ok d)) = true ∧
      isApiErr (ConversationResource.get ctors (.ok d)) = true) ∧
    (d.isList = false →
      isApiErr (ConversationResource.add_internal_notes mk (.ok d)) = true ∧
      isApiErr
        (EndUserResource.patch_end_user_custom_attributes mk (.ok d)) =
        true ∧
      isApiErr (EndUserResource.list_conversations ctors (.ok d)) = true) := by
  refine ⟨fun h => ?_, fun h => ?_⟩ <;> cases d <;> first
    | exact ⟨rfl, rfl, rfl, rfl⟩
    | exact ⟨rfl, rfl, rfl⟩
    | simp [Json.isDict] at h
    | simp [Json.isList] at h

/-- Witness for C2 at concrete inputs: a list body where a dict is
expected, and a dict body where a list is expected. -/
theorem C2_shape_checks_witness :
    isApiErr (ConversationResource.add_internal_note (fun _ => (0 : Nat))
      (.ok (.arr []))) = true ∧
    isApiErr (ConversationResource.add_internal_notes (fun _ => (0 : Nat))
      (.ok (.obj []))) = true :=
  ⟨((C2_shape_checks Nat (fun _ => 0) [] (.arr [])).1 rfl).1,
   ((C2_shape_checks Nat (fun _ => 0) [] (.obj [])).2 rfl).1⟩

/-- Claim C9: when the pagination call returns an empty list,
`EndUserResource.list_conversations` does not return an empty list — the
first loop iteration evaluates `data[0]`, which raises `IndexError` on
the empty list (uncaught by `except TypeError`), before any typed record
is produced.  This holds for every nonempty `ConversationTypes`. -/
theorem C9_empty_page_index_error (α : Type) (c : Json → Option α)
    (rest : List (Json → Option α)) :
    EndUserResource.list_conversations (c :: rest) (.ok (.arr [])) =
      .error .indexError :=
  rfl

/-- Claim C1 (divergence evidence): on a two-item page whose items both
fit the sole candidate constructor, `EndUserResource.list_conversations`
returns the single record built from the first item — not a list with one
record per item. -/
theorem C1_single_record_not_list :
    EndUserResource.list_conversations [fun _ => some (7 : Nat)]
      (.ok (.arr [.obj [], .obj [("id", .str "b")]])) = .ok 7 :=
  rfl

/-- Claim C3: `ConversationResource.create` and
`ConversationResource.get` attempt each candidate constructor in
`ConversationTypes` in order and return the result of the first one that
does not raise `TypeError`; when every candidate raises, they fail with a
`DixaAPIError` via exhausted-candidates fallthrough; and the result
depends on the order of the candidates when a payload fits more than
one (last two conjuncts: swapping two always-succeeding candidates
changes the result). -/
theorem C3_constructor_trial (α : Type)
    (pre post : List (Json → Option α)) (c : Json → Option α)
    (fs : List (String × Json)) (r : α)
    (hpre : ∀ c' ∈ pre, c' (.obj fs) = none)
    (hc : c (.obj fs) = some r) :
    ConversationResource.create (pre ++ c :: post) (.ok (.obj fs)) =
      .ok r ∧
    ConversationResource.get (pre ++ c :: post) (.ok (.obj fs)) = .ok r ∧
    (∀ ctors : List (Json → Option α),
      (∀ c' ∈ ctors, c' (.obj fs) = none) →
      ConversationResource.create ctors (.ok (.obj fs)) =
        .error (.api "Unknown conversation type") ∧
      ConversationResource.get ctors (.ok (.obj fs)) =
        .error (.api "Expected one of ConversationTypes, got dict")) ∧
    ConversationResource.create
      [fun _ => some (1 : Nat), fun _ => some 2] (.ok (.obj [])) =
      .ok 1 ∧
    ConversationResource.create
      [fun _ => some (2 : Nat), fun _ => some 1] (.ok (.obj [])) =
      .ok 2 := by
  refine ⟨?_, ?_, fun ctors hall => ⟨?_, ?_⟩, rfl, rfl⟩
  · simpa [ConversationResource.create, Json.isDict] using
      tryConversationTypes_first_success pre post c (.obj fs) _ r hpre hc
  · simpa [ConversationResource.get, Json.isDict] using
      tryConversationTypes_first_success pre post c (.obj fs) _ r hpre hc
  · simpa [ConversationResource.create, Json.isDict] using
      tryConversationTypes_exhausted ctors (.obj fs) _ hall
  · simpa [ConversationResource.get, Json.isDict, Json.pyTypeName] using
      tryConversationTypes_exhausted ctors (.obj fs) _ hall

/-- Witness for C3 at a concrete input: the first candidate raises, the
second succeeds, and `create` returns the second candidate's record. -/
theorem C3_constructor_trial_witness :
    ConversationResource.create
      [fun _ => (none : Option Nat), fun _ => some 5] (.ok (.obj [])) =
      .ok 5 :=
  (C3_constructor_trial Nat [fun _ => none] [] (fun _ => some 5) [] 5
    (fun c' h => by cases h with
      | head => rfl
      | tail _ h' => cases h') rfl).1

/-- A successful transport invocation ends the executor loop at once. -/
theorem execGo_success (cfg : RetryConfig) (transport : Nat → Outcome)
    (fuel done : Nat) (b : Json) (h : transport done = .success b) :
    execGo cfg transport fuel done = (.ok b, done + 1, []) := by
  cases fuel <;> simp only [execGo] <;> rw [h]

/-- A retry-ineligible HTTP error surfaces as a ClientError at once. -/
theorem execGo_clientError (cfg : RetryConfig) (transport : Nat → Outcome)
    (fuel done s : Nat) (hint : Option Nat)
    (h : transport done = .httpError s hint)
    (he : retryEligible (.httpError s hint) = false) :
    execGo cfg transport fuel done = (.error (.client s), done + 1, []) := by
  cases fuel <;> simp only [execGo] <;> rw [h] <;> simp [he]

/-- A retry-eligible HTTP error with fuel left sleeps once and re-enters
the loop at the next invocation index. -/
theorem execGo_retry (cfg : RetryConfig) (transport : Nat → Outcome)
    (fuel done s : Nat) (hint : Option Nat)
    (h : transport done = .httpError s hint)
    (he : retryEligible (.httpError s hint) = true) :
    execGo cfg transport (fuel + 1) done =
      ((execGo cfg transport fuel (done + 1)).1,
       (execGo cfg transport fuel (done + 1)).2.1,
       effectiveDelay cfg (done + 1) (.httpError s hint) ::
         (execGo cfg transport fuel (done + 1)).2.2) := by
  simp only [execGo]
  rw [h]
  simp [he]

/-- Claim C5: a transport whose first invocation returns a 4xx status
other than 429 makes the logical operation perform exactly one transport
invocation and surface a ClientError immediately, with no retry and no
backoff sleep (the slept-delay list is empty). -/
theorem C5_client_error_no_retry (cfg : RetryConfig)
    (transport : Nat → Outcome) (s : Nat) (hint : Option Nat)
    (h4 : 400 ≤ s) (h5 : s < 500) (h429 : s ≠ 429)
    (ht : transport 0 = .httpError s hint) :
    execute cfg transport = (.error (.client s), 1, []) := by
  have he : retryEligible (.httpError s hint) = false := by
    simp only [retryEligible]
    simp
    omega
  simpa [execute] using
    execGo_clientError cfg transport cfg.max_retries 0 s hint ht he

/-- Witness for C5: a transport that always answers 404 under the default
configuration. -/
theorem C5_client_error_no_retry_witness :
    execute ⟨3, 10⟩ (fun _ => .httpError 404 none) =
      (.error (.client 404), 1, []) :=
  C5_client_error_no_retry ⟨3, 10⟩ (fun _ => .httpError 404 none) 404 none
    (by omega) (by omega) (by omega) rfl

/-- A transport that answers a fixed retry-eligible HTTP error for `k`
invocations starting at `done` and then succeeds makes the executor loop
return the success with `done + k + 1` total invocations, provided at
least `k` retries remain. -/
theorem execGo_fail_then_success (cfg : RetryConfig)
    (transport : Nat → Outcome) (s : Nat) (hints : Nat → Option Nat)
    (b : Json)
    (helig : ∀ h : Option Nat, retryEligible (.httpError s h) = true) :
    ∀ k fuel done : Nat, k ≤ fuel →
    (∀ i, i < k → transport (done + i) = .httpError s (hints (done + i))) →
    transport (done + k) = .success b →
    (execGo cfg transport fuel done).1 = .ok b ∧
    (execGo cfg transport fuel done).2.1 = done + k + 1 := by
  intro k
  induction k with
  | zero =>
    intro fuel done _ _ hsucc
    rw [execGo_success cfg transport fuel done b (by simpa using hsucc)]
    simp
  | succ k ih =>
    intro fuel done hk hfail hsucc
    match fuel with
    | 0 => omega
    | fuel' + 1 =>
      have h0 : transport done = .httpError s (hints done) := by
        simpa using hfail 0 (by omega)
      rw [execGo_retry cfg transport fuel' done s (hints done) h0
        (helig _)]
      have hrec := ih fuel' (done + 1) (by omega)
        (fun i hi => by
          rw [show done + 1 + i = done + (i + 1) by omega]
          exact hfail (i + 1) (by omega))
        (by rw [show done + 1 + k = done + (k + 1) by omega]; exact hsucc)
      exact ⟨hrec.1, by rw [hrec.2]; omega⟩

/-- Claim C4: for every status code in {429, 500, 502, 503} and every
`k < max_retries`, a transport that fails `k` times with that status and
then succeeds makes the logical operation return the eventual success
result, with exactly `k + 1` transport invocations. -/
theorem C4_retry_then_success (cfg : RetryConfig)
    (transport : Nat → Outcome) (s k : Nat) (hints : Nat → Option Nat)
    (b : Json)
    (hs : s ∈ [429, 500, 502, 503])
    (hk : k < cfg.max_retries)
    (hfail : ∀ i, i < k → transport i = .httpError s (hints i))
    (hsucc : transport k = .success b) :
    (execute cfg transport).1 = .ok b ∧
    (execute cfg transport).2.1 = k + 1 := by
  have helig : ∀ h : Option Nat, retryEligible (.httpError s h) = true := by
    intro h
    simp only [retryEligible]
    simp only [List.mem_cons, List.not_mem_nil, or_false] at hs
    rcases hs with h1 | h1 | h1 | h1 <;> subst h1 <;> rfl
  have := execGo_fail_then_success cfg transport s hints b helig k
    cfg.max_retries 0 (by omega) (fun i hi => by simpa using hfail i hi)
    (by simpa using hsucc)
  simpa [execute] using this

/-- Witness for C4: two 500 failures then success, under the default
configuration — three invocations and the success body. -/
theorem C4_retry_then_success_witness :
    (execute ⟨3, 10⟩
      (fun i => if i < 2 then .httpError 500 none else .success .null)).1 =
      .ok .null ∧
    (execute ⟨3, 10⟩
      (fun i => if i < 2 then .httpError 500 none else .success .null)).2.1 =
      3 :=
  C4_retry_then_success ⟨3, 10⟩
    (fun i => if i < 2 then .httpError 500 none else .success .null)
    500 2 (fun _ => none) .null (by simp) (by decide)
    (fun i hi => by interval_cases i <;> rfl) rfl

/-- The paginator, run along a terminating cursor chain with enough fuel,
returns the pages' items concatenated in order and sends exactly the
chain's cursors (each merged into the query parameters), one request per
page. -/
theorem paginateGo_chain (fetch : Option String → Page)
    (query : List (String × String)) (pages : List Page)
    (cur : Option String) (hchain : PageChain fetch cur pages) :
    ∀ fuel : Nat, pages.length ≤ fuel →
    paginateGo fetch query fuel cur =
      (pages.flatMap Page.items,
       (cur :: (pages.map Page.next).dropLast).map (mergeCursor query)) := by
  induction hchain with
  | last cur p hf hn =>
    intro fuel hfuel
    match fuel with
    | fuel' + 1 =>
      simp only [paginateGo, hf, hn, List.flatMap_cons, List.flatMap_nil,
        List.map_cons, List.map_nil, List.dropLast_single, List.append_nil]
  | step cur p c rest hf hn hrest ih =>
    intro fuel hfuel
    match fuel with
    | fuel' + 1 =>
      have hlen : rest.length ≤ fuel' := by
        simp only [List.length_cons] at hfuel
        omega
      have hne : rest.map Page.next ≠ [] := by
        simpa using hrest.ne_nil
      simp only [paginateGo, hf, hn, ih fuel' hlen, List.flatMap_cons,
        List.map_cons, List.dropLast_cons_of_ne_nil hne]

/-- Claim C6: for every terminating sequence of pages served by the
endpoint, the paginator appends each page's items to the accumulator in
the order received, requests the next page exactly when a continuation
cursor is present (merging the cursor into the query parameters), stops
when the cursor is absent, and performs exactly one request-executor call
per page. -/
theorem C6_paginator (fetch : Option String → Page)
    (query : List (String × String)) (pages : List Page) (fuel : Nat)
    (hchain : PageChain fetch none pages)
    (hfuel : pages.length ≤ fuel) :
    paginate fetch query fuel =
      (pages.flatMap Page.items,
       (none :: (pages.map Page.next).dropLast).map (mergeCursor query)) ∧
    (paginate fetch query fuel).2.length = pages.length := by
  have h := paginateGo_chain fetch query pages none hchain fuel hfuel
  refine ⟨h, ?_⟩
  have hne : pages ≠ [] := hchain.ne_nil
  simp only [paginate, h, List.length_map, List.length_cons,
    List.length_dropLast, List.length_map]
  have : 0 < pages.length := List.length_pos.mpr hne
  omega

/-- The three-page server of the specification's pagination test:
pages of sizes 2, 2, 1 with cursors "c1", "c2", then end-of-stream. -/
def fetch3 : Option String → Page
  | none => ⟨[.num 1, .num 2], some "c1"⟩
  | some "c1" => ⟨[.num 3, .num 4], some "c2"⟩
  | some "c2" => ⟨[.num 5], none⟩
  | some _ => ⟨[], none⟩

/-- Witness for C6: three pages of sizes [2,2,1] with cursors
page1→"c1", page2→"c2", page3→absent yield one sequence of 5 items in
original order and exactly 3 requests. -/
theorem C6_paginator_witness :
    paginate fetch3 [] 3 =
      ([.num 1, .num 2, .num 3, .num 4, .num 5],
       [[], [("pageKey", "c1")], [("pageKey", "c2")]]) ∧
    (paginate fetch3 [] 3).2.length = 3 := by
  have h := C6_paginator fetch3 []
    [⟨[.num 1, .num 2], some "c1"⟩, ⟨[.num 3, .num 4], some "c2"⟩,
     ⟨[.num 5], none⟩] 3
    (by
      refine PageChain.step none _ "c1" _ rfl rfl ?_
      refine PageChain.step (some "c1") _ "c2" _ rfl rfl ?_
      exact PageChain.last (some "c2") _ rfl rfl)
    (by simp)
  exact ⟨h.1.trans rfl, h.2.trans rfl⟩
